import Mathlib

/-!
Shallow embedding of `mitmproxy/net/tls.py`: TLS context construction for
client and server legs of an intercepting proxy, protocol-version table,
verification callbacks and the master-secret logger.

Machine integers are modelled as `Nat`; Python `None`-able values as
`Option`; exceptions as `Except`.  External engine behaviour (pyOpenSSL /
libssl) is a parameter record `Engine`.
-/

/-! ### pyOpenSSL / OpenSSL constants used by the source -/

def SSLv2_METHOD : Nat := 1
def SSLv3_METHOD : Nat := 2
def SSLv23_METHOD : Nat := 3
def TLSv1_METHOD : Nat := 4
def TLSv1_1_METHOD : Nat := 5
def TLSv1_2_METHOD : Nat := 6

def OP_NO_COMPRESSION : Nat := 0x20000
def OP_CIPHER_SERVER_PREFERENCE : Nat := 0x400000
def OP_NO_SSLv2 : Nat := 0x1000000
def OP_NO_SSLv3 : Nat := 0x2000000

def VERIFY_NONE : Nat := 0
def VERIFY_PEER : Nat := 1

def SSL_CB_HANDSHAKE_DONE : Nat := 0x20

/-! ### Protocol version table (`BASIC_OPTIONS`, `DEFAULT_*`, `VERSION_CHOICES`,
`METHOD_NAMES`).  The source guards `OP_NO_COMPRESSION` behind
`hasattr(SSL, "OP_NO_COMPRESSION")`; that engine capability is the Boolean
parameter `hasNoCompression`. -/

def BASIC_OPTIONS (hasNoCompression : Bool) : Nat :=
  if hasNoCompression then
    OP_CIPHER_SERVER_PREFERENCE ||| OP_NO_COMPRESSION
  else
    OP_CIPHER_SERVER_PREFERENCE

def DEFAULT_METHOD : Nat := SSLv23_METHOD

def DEFAULT_OPTIONS (hasNoCompression : Bool) : Nat :=
  OP_NO_SSLv2 ||| OP_NO_SSLv3 ||| BASIC_OPTIONS hasNoCompression

def VERSION_CHOICES (hasNoCompression : Bool) : List (String × Nat × Nat) :=
  [ ("all", (SSLv23_METHOD, BASIC_OPTIONS hasNoCompression)),
    ("secure", (DEFAULT_METHOD, DEFAULT_OPTIONS hasNoCompression)),
    ("SSLv2", (SSLv2_METHOD, BASIC_OPTIONS hasNoCompression)),
    ("SSLv3", (SSLv3_METHOD, BASIC_OPTIONS hasNoCompression)),
    ("TLSv1", (TLSv1_METHOD, BASIC_OPTIONS hasNoCompression)),
    ("TLSv1_1", (TLSv1_1_METHOD, BASIC_OPTIONS hasNoCompression)),
    ("TLSv1_2", (TLSv1_2_METHOD, BASIC_OPTIONS hasNoCompression)) ]

def METHOD_NAMES_TABLE : List (Nat × String) :=
  [ (SSLv2_METHOD, "SSLv2"),
    (SSLv3_METHOD, "SSLv3"),
    (SSLv23_METHOD, "SSLv23"),
    (TLSv1_METHOD, "TLSv1"),
    (TLSv1_1_METHOD, "TLSv1.1"),
    (TLSv1_2_METHOD, "TLSv1.2") ]

def METHOD_NAMES (m : Nat) : Option String :=
  METHOD_NAMES_TABLE.lookup m

/-! ### String helpers modelling Python idioms -/

/-- `containsStr s sub`: `sub` occurs as a contiguous substring of `s`. -/
def containsStr (s sub : String) : Prop :=
  ∃ p q : String, s = p ++ sub ++ q

/-- Python truthiness of an optional string: `None` and `""` are falsy. -/
def truthyOpt (o : Option String) : Option String :=
  match o with
  | some s => if s.isEmpty then none else some s
  | none => none

/-- A single-quote character as a string. -/
def squote : String := (Char.ofNat 39).toString

/-- Python `repr` of an optional string: `None` prints as `"None"`, a string
prints wrapped in single quotes (escape subtleties of `repr` are out of scope
for the plain hostnames the source formats). -/
def pyRepr (o : Option String) : String :=
  match o with
  | some s => squote ++ s ++ squote
  | none => "None"

/-- Python `"{}".format(x)` on an optional string (`None` prints as `"None"`). -/
def pyStr (o : Option String) : String :=
  match o with
  | some s => s
  | none => "None"

/-! ### Master secret logger (`MasterSecretLogger`) -/

def hexDigit (n : Nat) : Char :=
  if n < 10 then Char.ofNat (48 + n) else Char.ofNat (87 + n)

/-- One byte as two lowercase hex characters, as `binascii.hexlify` prints it. -/
def hexByte (b : Nat) : String :=
  String.mk [hexDigit ((b % 256) / 16), hexDigit (b % 16)]

/-- `binascii.hexlify` on a byte string. -/
def hexlify (bs : List Nat) : String :=
  String.join (bs.map hexByte)

/-- State of a `MasterSecretLogger`: whether the output file has been opened
(`self.f`), the bytes appended to it so far, and whether the last write was
flushed.  The file system handle itself is abstracted to the appended text. -/
structure LoggerState where
  opened : Bool
  contents : String
  flushed : Bool
deriving Repr, DecidableEq

/-- The record written per completed handshake:
`CLIENT_RANDOM <hex client random> <hex master key>\r\n`. -/
def masterSecretRecord (client_random master_key : List Nat) : String :=
  "CLIENT_RANDOM " ++ hexlify client_random ++ " " ++ hexlify master_key ++ "\r\n"

/-- `MasterSecretLogger.__call__(connection, where, ret)`.  The
`client_random()` / `master_key()` values of the connection are passed as
explicit byte strings.  The
body runs under `self.lock` in the source; the state transition below is its
sequential effect. -/
def MasterSecretLogger.call (st : LoggerState)
    (client_random master_key : List Nat) (whereCode ret : Nat) : LoggerState :=
  if whereCode = SSL_CB_HANDSHAKE_DONE ∧ ret = 1 then
    let st :=
      if st.opened then st
      else { st with opened := true, contents := st.contents ++ "\r\n" }
    { st with
      contents := st.contents ++ masterSecretRecord client_random master_key,
      flushed := true }
  else st

/-! ### Errors (`exceptions.TlsException` raise sites, one constructor per
raise site of the source) -/

inductive TlsErr where
  /-- "SSL method ... is most likely not supported ..." -/
  | unsupportedMethod (msg : String)
  /-- "Cannot load trusted certificates (pem, path)." -/
  | trustStore (ca_pemfile ca_path : Option String)
  /-- "SSL cipher specification error: ..." -/
  | cipherSpec (cipher_list : String)
  /-- "ALPN error: alpn_select_callback must be a function." -/
  | alpnCallbackNotCallable
  /-- "ALPN error: only define alpn_select (string) OR alpn_select_callback (function)." -/
  | alpnBothGiven
  /-- "Cannot validate certificate hostname without SNI" -/
  | noSniForVerify
  /-- "SSL client certificate error: ..." -/
  | clientCert (cert : String)
deriving Repr, DecidableEq

/-! ### SSL context model -/

/-- The observable configuration accumulated on a pyOpenSSL `SSL.Context` by
`_create_ssl_context` and its callers. -/
structure SSLContext where
  method : Nat
  options : Nat
  verifySetting : Option Nat
  verifyCallbackSet : Bool
  /-- arguments of the `load_verify_locations(ca_pemfile, ca_path)` call,
  `none` if it was never called. -/
  verifyLocations : Option (Option String × Option String)
  autoRetry : Bool
  cipherList : Option String
  infoCallbackSet : Bool
  alpnProtos : Option (List String)
  alpnSelectCallbackSet : Bool
  clientCert : Option String
deriving Repr, DecidableEq

/-- Behaviour of the external TLS engine (libssl via pyOpenSSL):
which protocol methods `SSL.Context(method)` accepts, which trust stores
`load_verify_locations` loads, which cipher strings `set_cipher_list`
accepts, and which client-certificate files parse. -/
structure Engine where
  methodSupported : Nat → Bool
  loadVerifyOk : Option String → Option String → Bool
  cipherOk : String → Bool
  clientCertOk : String → Bool

/-- `certifi.where()`: the bundled system-default CA bundle path. -/
def certifi_where : String := "certifi/cacert.pem"

/-- Error message of the unsupported-method raise site. -/
def unsupportedMethodMsg (method : Nat) : String :=
  "SSL method \"" ++ (METHOD_NAMES method).getD "unknown" ++
    "\" is most likely not supported or disabled (for security reasons) in your libssl. Please refer to https://github.com/mitmproxy/mitmproxy/issues/1101 for more details."

/-- Fresh `SSL.Context(method)`. -/
def baseContext (method : Nat) : SSLContext :=
  { method := method, options := 0, verifySetting := none,
    verifyCallbackSet := false, verifyLocations := none, autoRetry := false,
    cipherList := none, infoCallbackSet := false, alpnProtos := none,
    alpnSelectCallbackSet := false, clientCert := none }

/-- `if options is not None: context.set_options(options)`. -/
def applyOptions (ctx : SSLContext) (options : Option Nat) : SSLContext :=
  match options with
  | some o => { ctx with options := ctx.options ||| o }
  | none => ctx

/-- Trust-store resolution: `if ca_path is None and ca_pemfile is None:
ca_pemfile = certifi.where()`. -/
def resolvedPem (ca_path ca_pemfile : Option String) : Option String :=
  if ca_path = none ∧ ca_pemfile = none then some certifi_where else ca_pemfile

/-- `if verify is not None:` block: `set_verify`, trust-store fallback to
`certifi.where()`, `load_verify_locations`. -/
def verifyAndTrust (eng : Engine) (ctx : SSLContext) (verify : Option Nat)
    (ca_path ca_pemfile : Option String) (has_verify_callback : Bool) :
    Except TlsErr SSLContext :=
  match verify with
  | none => Except.ok ctx
  | some v =>
    if eng.loadVerifyOk (resolvedPem ca_path ca_pemfile) ca_path then
      Except.ok { ctx with verifySetting := some v,
                           verifyCallbackSet := has_verify_callback,
                           verifyLocations :=
                             some (resolvedPem ca_path ca_pemfile, ca_path) }
    else
      Except.error (TlsErr.trustStore (resolvedPem ca_path ca_pemfile) ca_path)

/-- `if cipher_list:` block (`set_cipher_list`). -/
def applyCipher (eng : Engine) (ctx : SSLContext) (cipher_list : Option String) :
    Except TlsErr SSLContext :=
  match truthyOpt cipher_list with
  | none => Except.ok ctx
  | some cl =>
    if eng.cipherOk cl then Except.ok { ctx with cipherList := some cl }
    else Except.error (TlsErr.cipherSpec cl)

/-- `if log_master_secret: context.set_info_callback(...)`. -/
def applyLog (ctx : SSLContext) (logEnabled : Bool) : SSLContext :=
  if logEnabled then { ctx with infoCallbackSet := true } else ctx

/-- The ALPN `if/elif` chain at the end of `_create_ssl_context`.  The custom
callback value is abstracted to `Option Bool`: `some b` means a callback was
given and `b` records Python `callable(...)` on it. -/
def applyAlpn (ctx : SSLContext) (alpn_protos : Option (List String))
    (alpn_select : Option String) (alpn_select_callback : Option Bool) :
    Except TlsErr SSLContext :=
  if alpn_protos.isSome then
    Except.ok { ctx with alpnProtos := alpn_protos }
  else if alpn_select.isSome ∧ alpn_select_callback = none then
    Except.ok { ctx with alpnSelectCallbackSet := true }
  else if alpn_select_callback.isSome ∧ alpn_select = none then
    if alpn_select_callback = some false then
      Except.error TlsErr.alpnCallbackNotCallable
    else
      Except.ok { ctx with alpnSelectCallbackSet := true }
  else if alpn_select_callback.isSome ∧ alpn_select.isSome then
    Except.error TlsErr.alpnBothGiven
  else
    Except.ok ctx

/-- `_create_ssl_context` of `mitmproxy/net/tls.py`.  `logEnabled` models the
process-wide `log_master_secret` being non-`None`. -/
def _create_ssl_context (eng : Engine) (logEnabled : Bool)
    (method : Nat) (options : Option Nat)
    (ca_path ca_pemfile : Option String) (cipher_list : Option String)
    (alpn_protos : Option (List String)) (alpn_select : Option String)
    (alpn_select_callback : Option Bool)
    (verify : Option Nat) (has_verify_callback : Bool) :
    Except TlsErr SSLContext :=
  if eng.methodSupported method = false then
    Except.error (TlsErr.unsupportedMethod (unsupportedMethodMsg method))
  else
    match verifyAndTrust eng (applyOptions (baseContext method) options) verify
        ca_path ca_pemfile has_verify_callback with
    | Except.error e => Except.error e
    | Except.ok ctx =>
      match applyCipher eng { ctx with autoRetry := true } cipher_list with
      | Except.error e => Except.error e
      | Except.ok ctx =>
        applyAlpn (applyLog ctx logEnabled) alpn_protos alpn_select
          alpn_select_callback

/-! ### Client context (`create_client_context` and its `verify_callback`) -/

/-- The fields of a `certs.SSLCert` the callback reads: ASCII-decoded
subject alternative names and, optionally, the common name. -/
structure SSLCertModel where
  altnames : List String
  cn : Option String
deriving Repr, DecidableEq

/-- The dictionary handed to `ssl.match_hostname`: `subjectAltName` entries
`("DNS", name)` and, when `cert.cn` is truthy, the common name under
`subject`. -/
structure CrtDict where
  subjectAltName : List (String × String)
  subjectCommonName : Option String
deriving Repr, DecidableEq

/-- Construction of the `crt` dictionary inside `verify_callback`. -/
def buildCrt (c : SSLCertModel) : CrtDict :=
  { subjectAltName := c.altnames.map (fun x => ("DNS", x)),
    subjectCommonName := truthyOpt c.cn }

/-- The hostname `verify_callback` matches against: the IDNA-encoded SNI when
one is configured (truthy), the sentinel `"no-hostname"` otherwise.  `idna`
is the Python `str.encode("idna").decode("ascii")` codec, an engine-side
function taken as a parameter. -/
def targetHostname (idna : String → String) (sni : Option String) : String :=
  match truthyOpt sni with
  | some s => idna s
  | none => "no-hostname"

/-- `sni or repr(address)` in the mismatch error message. -/
def sniOrRepr (sni address : Option String) : String :=
  match truthyOpt sni with
  | some s => s
  | none => pyRepr address

/-- Error message attached on a depth-0 hostname-matching failure `e`. -/
def mismatchMsg (sni address : Option String) (e : String) : String :=
  "Certificate verification error for " ++ sniOrRepr sni address ++ ": " ++ e

/-- Error message attached when the preliminary verification result is
negative.  `errStr` is `X509_verify_cert_error_string`. -/
def negVerifyMsg (errStr : Nat → String) (sni : Option String)
    (errno depth : Nat) : String :=
  "Certificate verification error for " ++ pyStr sni ++ ": " ++ errStr errno ++
    " (errno: " ++ toString errno ++ ", depth: " ++ toString depth ++ ")"

/-- Per-connection mutable state the callback touches: the `cert_error`
attribute attached to the `SSL.Connection`. -/
structure ConnState where
  cert_error : Option String
deriving Repr, DecidableEq

/-- `verify_callback` defined inside `create_client_context`.

Parameters closed over or engine-supplied: `m` is `ssl.match_hostname`
(`ok` on match, `error` with the `CertificateError`/`ValueError` message on
mismatch), `idna` the IDNA codec, `errStr` the engine function
`X509_verify_cert_error_string`, `sni` and `address` the closure variables.
Returns the updated connection state and the Boolean handed back to the
engine. -/
def verify_callback (m : CrtDict → String → Except String Unit)
    (idna : String → String) (errStr : Nat → String)
    (sni address : Option String)
    (conn : ConnState) (x509 : SSLCertModel) (errno depth : Nat)
    (is_cert_verified : Bool) : ConnState × Bool :=
  if is_cert_verified ∧ depth = 0 then
    match m (buildCrt x509) (targetHostname idna sni) with
    | Except.ok _ => (conn, true)
    | Except.error e =>
      ({ conn with cert_error := some (mismatchMsg sni address e) }, false)
  else if is_cert_verified then
    (conn, true)
  else
    ({ conn with cert_error := some (negVerifyMsg errStr sni errno depth) },
     false)

/-- `create_client_context`.  The `**sslctx_kwargs` forwarded to
`_create_ssl_context` are spelled out; `verify` and `verify_callback` are
fixed by this function itself. -/
def create_client_context (eng : Engine) (logEnabled : Bool)
    (cert : Option String) (sni : Option String) (address : Option String)
    (verify : Nat)
    (method : Nat) (options : Option Nat)
    (ca_path ca_pemfile : Option String) (cipher_list : Option String)
    (alpn_protos : Option (List String)) (alpn_select : Option String)
    (alpn_select_callback : Option Bool) :
    Except TlsErr SSLContext :=
  if sni = none ∧ verify ≠ VERIFY_NONE then
    Except.error TlsErr.noSniForVerify
  else
    match _create_ssl_context eng logEnabled method options ca_path ca_pemfile
        cipher_list alpn_protos alpn_select alpn_select_callback
        (some verify) true with
    | Except.error e => Except.error e
    | Except.ok ctx =>
      match truthyOpt cert with
      | none => Except.ok ctx
      | some c =>
        if eng.clientCertOk c then Except.ok { ctx with clientCert := some c }
        else Except.error (TlsErr.clientCert c)

/-! ### Server context (`create_server_context` and `accept_all`) -/

/-- `accept_all` defined inside `create_server_context`: the verify callback
installed on server-side contexts. -/
def accept_all (conn_ : ConnState) (x509 : SSLCertModel)
    (errno err_depth : Nat) (is_cert_verified : Bool) : Bool :=
  true

/-- Server-side installs performed after `_create_ssl_context` returns. -/
structure ServerContext where
  base : SSLContext
  privateKeySet : Bool
  /-- `inl c`: `use_certificate(cert.x509)`; `inr path`:
  `use_certificate_chain_file(path)`. -/
  certInstalled : SSLCertModel ⊕ String
  extraChainCerts : List SSLCertModel
  sniCallbackSet : Bool
  dhParamsSet : Bool
deriving Repr, DecidableEq

/-- `create_server_context`.  `handle_sni` and `dhparams` are abstracted to
their presence; the forwarded `**sslctx_kwargs` are spelled out, including
`ca_path` and `alpn_protos` (only `ca_pemfile`, `verify` and
`verify_callback` are fixed by this function itself). -/
def create_server_context (eng : Engine) (logEnabled : Bool)
    (cert : SSLCertModel ⊕ String)
    (handle_sni : Bool) (request_client_cert : Bool)
    (chain_file : Option String) (dhparams : Bool)
    (extra_chain_certs : Option (List SSLCertModel))
    (method : Nat) (options : Option Nat) (ca_path : Option String)
    (cipher_list : Option String) (alpn_protos : Option (List String))
    (alpn_select : Option String) (alpn_select_callback : Option Bool) :
    Except TlsErr ServerContext :=
  match _create_ssl_context eng logEnabled method options ca_path chain_file
      cipher_list alpn_protos alpn_select alpn_select_callback
      (some (if request_client_cert then VERIFY_PEER else VERIFY_NONE)) true with
  | Except.error e => Except.error e
  | Except.ok ctx =>
    Except.ok
      { base := ctx, privateKeySet := true, certInstalled := cert,
        extraChainCerts := (extra_chain_certs.getD []),
        sniCallbackSet := handle_sni, dhParamsSet := dhparams }

/-! ### Concrete engines for witnesses and counterexamples -/

/-- An engine that accepts every method, trust store, cipher and
client-certificate file. -/
def engAllOk : Engine :=
  { methodSupported := fun _ => true, loadVerifyOk := fun _ _ => true,
    cipherOk := fun _ => true, clientCertOk := fun _ => true }

/-- An engine whose `SSL.Context(method)` rejects every method. -/
def engRejectAll : Engine :=
  { methodSupported := fun _ => false, loadVerifyOk := fun _ _ => true,
    cipherOk := fun _ => true, clientCertOk := fun _ => true }

/-- Success projection of a context-construction result. -/
def ctxOf (r : Except TlsErr SSLContext) : Option SSLContext :=
  match r with
  | Except.ok c => some c
  | Except.error _ => none

/-- Success projection of a server-context-construction result. -/
def serverCtxOf (r : Except TlsErr ServerContext) : Option ServerContext :=
  match r with
  | Except.ok c => some c
  | Except.error _ => none

/-- A leaf certificate whose only subject alternative name is
`example.com`. -/
def exampleCert : SSLCertModel := { altnames := ["example.com"], cn := none }

/-- `ssl.match_hostname` behaviour on `exampleCert` against the hostname
`other.com`: a `CertificateError` whose message mentions neither an error
code nor a depth. -/
def matchRejectOther : CrtDict → String → Except String Unit :=
  fun _ _ => Except.error "hostname mismatch"

/-- The message attached by `verify_callback` in the depth-0 mismatch
counterexample. -/
def c7msg : String := "Certificate verification error for other.com: hostname mismatch"

/-- The context produced by `_create_ssl_context` with default method, peer
verification, and no explicit CA material, under `engAllOk`. -/
def c8ctx : SSLContext :=
  { method := DEFAULT_METHOD, options := 0,
    verifySetting := some VERIFY_PEER, verifyCallbackSet := true,
    verifyLocations := some (some certifi_where, none), autoRetry := true,
    cipherList := none, infoCallbackSet := false, alpnProtos := none,
    alpnSelectCallbackSet := false, clientCert := none }

/-- The server context produced by `create_server_context` with no chain
file and `request_client_cert = false`, under `engAllOk`. -/
def c10ctx : ServerContext :=
  { base :=
      { method := DEFAULT_METHOD, options := 0,
        verifySetting := some VERIFY_NONE, verifyCallbackSet := true,
        verifyLocations := some (some certifi_where, none), autoRetry := true,
        cipherList := none, infoCallbackSet := false, alpnProtos := none,
        alpnSelectCallbackSet := false, clientCert := none },
    privateKeySet := true, certInstalled := Sum.inr "server-chain.pem",
    extraChainCerts := [], sniCallbackSet := false, dhParamsSet := false }

/-! ### Helper lemmas -/

theorem str_append_assoc (a b c : String) : (a ++ b) ++ c = a ++ (b ++ c) := by
  apply String.ext
  simp [String.data_append]

theorem containsStr_char {s sub : String} (h : containsStr s sub) {c : Char}
    (hc : c ∈ sub.data) : c ∈ s.data := by
  obtain ⟨p, q, h⟩ := h
  subst h
  simp only [String.data_append, List.mem_append]
  tauto

/-! ### Claims -/

/-- C4: the verify callback installed by `create_server_context`
(`accept_all`) returns a positive result for every connection, certificate,
error code, chain depth and preliminary verification result. -/
theorem claim_C4 (conn : ConnState) (x509 : SSLCertModel)
    (errno depth : Nat) (is_cert_verified : Bool) :
    accept_all conn x509 errno depth is_cert_verified = true := rfl

/-- C5: every entry of `VERSION_CHOICES` has an option bitmask containing the
server-cipher-preference bit, contains the no-compression bit whenever the
engine defines it, and the "secure" entry additionally contains the bits
disabling SSLv2 and SSLv3. -/
theorem claim_C5 (hnc : Bool) (name : String) (meth opts : Nat)
    (hmem : (name, (meth, opts)) ∈ VERSION_CHOICES hnc) :
    opts &&& OP_CIPHER_SERVER_PREFERENCE = OP_CIPHER_SERVER_PREFERENCE ∧
    (hnc = true → opts &&& OP_NO_COMPRESSION = OP_NO_COMPRESSION) ∧
    (name = "secure" →
      opts &&& (OP_NO_SSLv2 ||| OP_NO_SSLv3) = OP_NO_SSLv2 ||| OP_NO_SSLv3) := by
  cases hnc <;>
    simp only [VERSION_CHOICES, List.mem_cons, List.not_mem_nil, or_false,
      Prod.mk.injEq] at hmem <;>
    rcases hmem with ⟨h1, h2, h3⟩ | ⟨h1, h2, h3⟩ | ⟨h1, h2, h3⟩ | ⟨h1, h2, h3⟩ |
      ⟨h1, h2, h3⟩ | ⟨h1, h2, h3⟩ | ⟨h1, h2, h3⟩ <;>
    subst h1 <;> subst h3 <;> refine ⟨by decide, by decide, ?_⟩ <;>
    intro hs <;> first
      | decide
      | (exact absurd hs (by decide))

theorem claim_C5_witness :
    (("secure", (DEFAULT_METHOD, DEFAULT_OPTIONS true)) ∈ VERSION_CHOICES true) ∧
    ((DEFAULT_OPTIONS true) &&& OP_CIPHER_SERVER_PREFERENCE = OP_CIPHER_SERVER_PREFERENCE ∧
     (true = true → (DEFAULT_OPTIONS true) &&& OP_NO_COMPRESSION = OP_NO_COMPRESSION) ∧
     ("secure" = "secure" →
       (DEFAULT_OPTIONS true) &&& (OP_NO_SSLv2 ||| OP_NO_SSLv3) = OP_NO_SSLv2 ||| OP_NO_SSLv3)) :=
  ⟨by decide, claim_C5 true "secure" DEFAULT_METHOD (DEFAULT_OPTIONS true) (by decide)⟩

/-- C9: on every successful-handshake-completion event (`where` is
`SSL_CB_HANDSHAKE_DONE` and `ret = 1`), an enabled `MasterSecretLogger`
appends exactly one `CLIENT_RANDOM <hex> <hex>` record terminated by
`"\r\n"`, preceded by one blank line on the first use of the file, marks the
file opened, and flushes. -/
theorem claim_C9 (st : LoggerState) (client_random master_key : List Nat) :
    MasterSecretLogger.call st client_random master_key SSL_CB_HANDSHAKE_DONE 1 =
      { opened := true,
        contents :=
          if st.opened then
            st.contents ++ masterSecretRecord client_random master_key
          else
            st.contents ++ "\r\n" ++ masterSecretRecord client_random master_key,
        flushed := true } := by
  cases st with
  | mk opened contents flushed =>
    cases opened <;> rfl

/-- C1: at chain depth 0 with a positive preliminary result, the client
verification callback builds the identity descriptor `buildCrt x509` from the
subject alternative names and common name of the leaf certificate, matches it
against the IDNA-encoded SNI (sentinel `"no-hostname"` when none is
configured); on mismatch it attaches a verification error to the connection
and returns a negative result, and on match it returns the positive result
and attaches no error. -/
theorem claim_C1 (m : CrtDict → String → Except String Unit)
    (idna : String → String) (errStr : Nat → String)
    (sni address : Option String) (conn : ConnState) (x509 : SSLCertModel)
    (errno : Nat) :
    verify_callback m idna errStr sni address conn x509 errno 0 true =
      match m (buildCrt x509) (targetHostname idna sni) with
      | Except.ok _ => (conn, true)
      | Except.error e =>
        ({ conn with cert_error := some (mismatchMsg sni address e) }, false) := by
  unfold verify_callback
  simp

theorem verifyAndTrust_error_shape {eng : Engine} {ctx : SSLContext}
    {verify : Option Nat} {ca_path ca_pemfile : Option String} {hcb : Bool}
    {e : TlsErr}
    (h : verifyAndTrust eng ctx verify ca_path ca_pemfile hcb = Except.error e) :
    ∃ p c, e = TlsErr.trustStore p c := by
  unfold verifyAndTrust at h
  split at h
  · simp at h
  · split at h
    · simp at h
    · simp only [Except.error.injEq] at h
      exact ⟨_, _, h.symm⟩

theorem verifyAndTrust_locations {eng : Engine} {ctx : SSLContext} {v : Nat}
    {ca_path ca_pemfile : Option String} {hcb : Bool} {ctx2 : SSLContext}
    (h : verifyAndTrust eng ctx (some v) ca_path ca_pemfile hcb = Except.ok ctx2) :
    ctx2.verifyLocations = some (resolvedPem ca_path ca_pemfile, ca_path) := by
  simp only [verifyAndTrust] at h
  split at h
  · simp only [Except.ok.injEq] at h
    subst h
    rfl
  · simp at h

theorem verifyAndTrust_ok_of {eng : Engine} (ctx : SSLContext)
    (verify : Option Nat) (ca_path ca_pemfile : Option String) (hcb : Bool)
    (hL : ∀ p c, eng.loadVerifyOk p c = true) :
    ∃ ctx2, verifyAndTrust eng ctx verify ca_path ca_pemfile hcb = Except.ok ctx2 := by
  cases verify with
  | none => exact ⟨ctx, rfl⟩
  | some v =>
    simp only [verifyAndTrust, hL, if_true]
    exact ⟨_, rfl⟩

theorem applyCipher_error_shape {eng : Engine} {ctx : SSLContext}
    {cl : Option String} {e : TlsErr}
    (h : applyCipher eng ctx cl = Except.error e) :
    ∃ c, e = TlsErr.cipherSpec c := by
  unfold applyCipher at h
  split at h
  · simp at h
  · split at h
    · simp at h
    · simp only [Except.error.injEq] at h
      exact ⟨_, h.symm⟩

theorem applyCipher_preserves {eng : Engine} {ctx : SSLContext}
    {cl : Option String} {ctx2 : SSLContext}
    (h : applyCipher eng ctx cl = Except.ok ctx2) :
    ctx2.verifyLocations = ctx.verifyLocations := by
  unfold applyCipher at h
  split at h
  · simp only [Except.ok.injEq] at h
    subst h
    rfl
  · split at h
    · simp only [Except.ok.injEq] at h
      subst h
      rfl
    · simp at h

theorem applyCipher_ok_of {eng : Engine} (ctx : SSLContext) (cl : Option String)
    (hC : ∀ c, eng.cipherOk c = true) :
    ∃ ctx2, applyCipher eng ctx cl = Except.ok ctx2 := by
  unfold applyCipher
  split
  · exact ⟨ctx, rfl⟩
  · simp only [hC, if_true]
    exact ⟨_, rfl⟩

theorem applyAlpn_error_shape {ctx : SSLContext} {protos : Option (List String)}
    {sel : Option String} {cb : Option Bool} {e : TlsErr}
    (h : applyAlpn ctx protos sel cb = Except.error e) :
    e = TlsErr.alpnCallbackNotCallable ∨ e = TlsErr.alpnBothGiven := by
  unfold applyAlpn at h
  split at h
  · simp at h
  · split at h
    · simp at h
    · split at h
      · split at h
        · simp only [Except.error.injEq] at h
          exact Or.inl h.symm
        · simp at h
      · split at h
        · simp only [Except.error.injEq] at h
          exact Or.inr h.symm
        · simp at h

theorem applyAlpn_preserves {ctx : SSLContext} {protos : Option (List String)}
    {sel : Option String} {cb : Option Bool} {ctx2 : SSLContext}
    (h : applyAlpn ctx protos sel cb = Except.ok ctx2) :
    ctx2.verifyLocations = ctx.verifyLocations := by
  unfold applyAlpn at h
  split at h
  · simp only [Except.ok.injEq] at h
    subst h
    rfl
  · split at h
    · simp only [Except.ok.injEq] at h
      subst h
      rfl
    · split at h
      · split at h
        · simp at h
        · simp only [Except.ok.injEq] at h
          subst h
          rfl
      · split at h
        · simp at h
        · simp only [Except.ok.injEq] at h
          subst h
          rfl

theorem applyLog_preserves (ctx : SSLContext) (logE : Bool) :
    (applyLog ctx logE).verifyLocations = ctx.verifyLocations := by
  unfold applyLog
  split <;> rfl

theorem create_ssl_context_error_ne_sni {eng : Engine} {logE : Bool}
    {method : Nat} {options : Option Nat}
    {ca_path ca_pemfile cipher_list : Option String}
    {protos : Option (List String)} {sel : Option String} {cb : Option Bool}
    {verify : Option Nat} {hcb : Bool} {e : TlsErr}
    (h : _create_ssl_context eng logE method options ca_path ca_pemfile
        cipher_list protos sel cb verify hcb = Except.error e) :
    e ≠ TlsErr.noSniForVerify := by
  unfold _create_ssl_context at h
  split at h
  · simp only [Except.error.injEq] at h
    subst h
    simp
  · split at h
    · rename_i e0 heq
      simp only [Except.error.injEq] at h
      subst h
      obtain ⟨p, c, rfl⟩ := verifyAndTrust_error_shape heq
      simp
    · rename_i ctx1 heq
      split at h
      · rename_i e0 heq2
        simp only [Except.error.injEq] at h
        subst h
        obtain ⟨c, rfl⟩ := applyCipher_error_shape heq2
        simp
      · rename_i ctx2 heq2
        rcases applyAlpn_error_shape h with rfl | rfl <;> simp

theorem create_ssl_context_locations {eng : Engine} {logE : Bool}
    {method : Nat} {options : Option Nat}
    {ca_path ca_pemfile cipher_list : Option String}
    {protos : Option (List String)} {sel : Option String} {cb : Option Bool}
    {v : Nat} {hcb : Bool} {ctx : SSLContext}
    (h : _create_ssl_context eng logE method options ca_path ca_pemfile
        cipher_list protos sel cb (some v) hcb = Except.ok ctx) :
    ctx.verifyLocations = some (resolvedPem ca_path ca_pemfile, ca_path) := by
  unfold _create_ssl_context at h
  split at h
  · simp at h
  · split at h
    · simp at h
    · rename_i ctx1 heq
      split at h
      · simp at h
      · rename_i ctx2 heq2
        have h3 := verifyAndTrust_locations heq
        rw [applyAlpn_preserves h, applyLog_preserves, applyCipher_preserves heq2]
        exact h3

/-- C2: `create_client_context` with no SNI and a verify mode other than
`VERIFY_NONE` always fails with the SNI-required error before producing a
context; with no SNI and `VERIFY_NONE` it never fails with that error. -/
theorem claim_C2 (eng : Engine) (logE : Bool) (cert address : Option String)
    (verify method : Nat) (options : Option Nat)
    (ca_path ca_pemfile cipher_list : Option String)
    (protos : Option (List String)) (sel : Option String) (cb : Option Bool) :
    (verify ≠ VERIFY_NONE →
      create_client_context eng logE cert none address verify method options
          ca_path ca_pemfile cipher_list protos sel cb =
        Except.error TlsErr.noSniForVerify) ∧
    create_client_context eng logE cert none address VERIFY_NONE method options
        ca_path ca_pemfile cipher_list protos sel cb ≠
      Except.error TlsErr.noSniForVerify := by
  constructor
  · intro hv
    unfold create_client_context
    rw [if_pos ⟨rfl, hv⟩]
  · intro hbad
    unfold create_client_context at hbad
    rw [if_neg (by simp)] at hbad
    split at hbad
    · rename_i e heq
      simp only [Except.error.injEq] at hbad
      exact absurd hbad (create_ssl_context_error_ne_sni heq)
    · rename_i ctx heq
      split at hbad
      · simp at hbad
      · split at hbad
        · simp at hbad
        · simp at hbad

theorem claim_C2_witness :
    create_client_context engAllOk false none none none VERIFY_PEER
        DEFAULT_METHOD none none none none none none none =
      Except.error TlsErr.noSniForVerify ∧
    create_client_context engAllOk false none none none VERIFY_NONE
        DEFAULT_METHOD none none none none none none none ≠
      Except.error TlsErr.noSniForVerify :=
  ⟨(claim_C2 engAllOk false none none VERIFY_PEER DEFAULT_METHOD none none
      none none none none none).1 (by decide),
   (claim_C2 engAllOk false none none VERIFY_NONE DEFAULT_METHOD none none
      none none none none none).2⟩

/-- C3 (amended): when no ALPN advertise list (`alpn_protos`) is supplied
and the earlier construction stages succeed, supplying both `alpn_select`
and `alpn_select_callback` makes `_create_ssl_context` fail with the ALPN
configuration error, regardless of the remaining parameters.  With an
advertise list also supplied the call succeeds instead (see the
counterexample). -/
theorem claim_C3 (eng : Engine) (logE : Bool) (method : Nat)
    (options : Option Nat) (ca_path ca_pemfile cipher_list : Option String)
    (sel : String) (cb : Bool) (verify : Option Nat) (hcb : Bool)
    (hm : eng.methodSupported method = true)
    (hL : ∀ p c, eng.loadVerifyOk p c = true)
    (hC : ∀ c, eng.cipherOk c = true) :
    _create_ssl_context eng logE method options ca_path ca_pemfile cipher_list
        none (some sel) (some cb) verify hcb =
      Except.error TlsErr.alpnBothGiven := by
  unfold _create_ssl_context
  rw [hm]
  rw [if_neg (by simp)]
  obtain ⟨ctx1, h1⟩ := verifyAndTrust_ok_of (applyOptions (baseContext method)
    options) verify ca_path ca_pemfile hcb hL
  simp only [h1]
  obtain ⟨ctx2, h2⟩ := applyCipher_ok_of { ctx1 with autoRetry := true }
    cipher_list hC
  simp only [h2]
  simp [applyAlpn]

theorem claim_C3_witness :
    _create_ssl_context engAllOk false DEFAULT_METHOD none none none none none
        (some "http/1.1") (some true) (some VERIFY_PEER) true =
      Except.error TlsErr.alpnBothGiven :=
  claim_C3 engAllOk false DEFAULT_METHOD none none none none "http/1.1" true
    (some VERIFY_PEER) true rfl (fun _ _ => rfl) (fun _ => rfl)

/-- C3 counterexample: with an advertise list (`alpn_protos`) also supplied,
`_create_ssl_context` succeeds and installs the advertise list even though
both `alpn_select` and `alpn_select_callback` were given — no ALPN
configuration error is raised. -/
theorem claim_C3_cex :
    (ctxOf (_create_ssl_context engAllOk false DEFAULT_METHOD none none none
        none (some ["h2"]) (some "http/1.1") (some true) (some VERIFY_PEER)
        true)).map (fun c => c.alpnProtos) = some (some ["h2"]) := rfl

/-- C6 (amended): for every protocol method present in the method-name table
(`METHOD_NAMES`) that the engine rejects at context creation,
`_create_ssl_context` fails with the unsupported-protocol error and the
message names that protocol version; a rejected method outside the table
yields the same error with "unknown" in place of a version name (see the
counterexample). -/
theorem claim_C6 (eng : Engine) (logE : Bool) (method : Nat)
    (options : Option Nat) (ca_path ca_pemfile cipher_list : Option String)
    (protos : Option (List String)) (sel : Option String) (cb : Option Bool)
    (verify : Option Nat) (hcb : Bool) (name : String)
    (hname : METHOD_NAMES method = some name)
    (hrej : eng.methodSupported method = false) :
    _create_ssl_context eng logE method options ca_path ca_pemfile cipher_list
        protos sel cb verify hcb =
      Except.error (TlsErr.unsupportedMethod (unsupportedMethodMsg method)) ∧
    containsStr (unsupportedMethodMsg method) name := by
  constructor
  · unfold _create_ssl_context
    rw [hrej]
    rw [if_pos rfl]
  · refine ⟨"SSL method \"",
      "\" is most likely not supported or disabled (for security reasons) in your libssl. Please refer to https://github.com/mitmproxy/mitmproxy/issues/1101 for more details.",
      ?_⟩
    simp [unsupportedMethodMsg, hname]

theorem claim_C6_witness :
    (METHOD_NAMES SSLv2_METHOD = some "SSLv2" ∧
     engRejectAll.methodSupported SSLv2_METHOD = false) ∧
    (_create_ssl_context engRejectAll false SSLv2_METHOD none none none none
        none none none none true =
      Except.error
        (TlsErr.unsupportedMethod (unsupportedMethodMsg SSLv2_METHOD)) ∧
     containsStr (unsupportedMethodMsg SSLv2_METHOD) "SSLv2") :=
  ⟨⟨rfl, rfl⟩,
   claim_C6 engRejectAll false SSLv2_METHOD none none none none none none none
     none true "SSLv2" rfl rfl⟩

/-- C6 counterexample: a protocol method outside the name table (999),
rejected by the engine, yields an error whose message reads "unknown" and is
identical to the message for a different method (998): the message does not
name the requested protocol version. -/
theorem claim_C6_cex :
    METHOD_NAMES 999 = none ∧
    _create_ssl_context engRejectAll false 999 none none none none none none
        none none true =
      Except.error (TlsErr.unsupportedMethod (unsupportedMethodMsg 999)) ∧
    unsupportedMethodMsg 999 = unsupportedMethodMsg 998 :=
  ⟨rfl, rfl, rfl⟩

/-- C7 (amended): the error the client verification callback attaches on a
negative preliminary result includes the SNI value, the engine error string
and the numeric error code and chain depth; the error attached on a depth-0
hostname mismatch includes the target hostname (or the peer address
representation when no SNI is configured) and the matching failure text, but
not the error code or chain depth (see the counterexample). -/
theorem claim_C7 (m : CrtDict → String → Except String Unit)
    (idna : String → String) (errStr : Nat → String)
    (sni address : Option String) (conn : ConnState) (x509 : SSLCertModel)
    (errno depth : Nat) (e : String) :
    (verify_callback m idna errStr sni address conn x509 errno depth false =
      ({ conn with cert_error := some (negVerifyMsg errStr sni errno depth) },
        false)) ∧
    containsStr (negVerifyMsg errStr sni errno depth) (pyStr sni) ∧
    containsStr (negVerifyMsg errStr sni errno depth) (toString errno) ∧
    containsStr (negVerifyMsg errStr sni errno depth) (toString depth) ∧
    containsStr (mismatchMsg sni address e) (sniOrRepr sni address) := by
  refine ⟨?_, ?_, ?_, ?_, ?_⟩
  · unfold verify_callback
    simp
  · exact ⟨"Certificate verification error for ",
      ": " ++ errStr errno ++ " (errno: " ++ toString errno ++ ", depth: " ++
        toString depth ++ ")",
      by simp [negVerifyMsg, str_append_assoc]⟩
  · exact ⟨"Certificate verification error for " ++ pyStr sni ++ ": " ++
        errStr errno ++ " (errno: ",
      ", depth: " ++ toString depth ++ ")",
      by simp [negVerifyMsg, str_append_assoc]⟩
  · exact ⟨"Certificate verification error for " ++ pyStr sni ++ ": " ++
        errStr errno ++ " (errno: " ++ toString errno ++ ", depth: ",
      ")",
      by simp [negVerifyMsg, str_append_assoc]⟩
  · exact ⟨"Certificate verification error for ", ": " ++ e,
      by simp [mismatchMsg, str_append_assoc]⟩

/-- C7 counterexample: the error attached on a depth-0 hostname mismatch
(SNI `other.com`, error code 20, depth 0) contains neither the underlying
error code nor the chain depth. -/
theorem claim_C7_cex :
    (verify_callback matchRejectOther (fun s => s) (fun _ => "")
        (some "other.com") none { cert_error := none } exampleCert 20 0
        true).1.cert_error = some c7msg ∧
    ¬ containsStr c7msg (toString 20) ∧ ¬ containsStr c7msg (toString 0) := by
  refine ⟨rfl, fun h => ?_, fun h => ?_⟩
  · exact absurd (containsStr_char h (c := '2') (by decide)) (by decide)
  · exact absurd (containsStr_char h (c := '0') (by decide)) (by decide)

/-- C8 (amended): for every `_create_ssl_context` call that supplies a
verify mode (as both in-repository callers do) and neither a CA directory
nor a CA bundle file, any produced context has the system default trust
bundle (`certifi.where()`) loaded as its verify locations; with
`verify = None` the trust store is not loaded at all (see the
counterexample). -/
theorem claim_C8 (eng : Engine) (logE : Bool) (method : Nat)
    (options : Option Nat) (cipher_list : Option String)
    (protos : Option (List String)) (sel : Option String) (cb : Option Bool)
    (v : Nat) (hcb : Bool) (ctx : SSLContext)
    (h : _create_ssl_context eng logE method options none none cipher_list
        protos sel cb (some v) hcb = Except.ok ctx) :
    ctx.verifyLocations = some (some certifi_where, none) := by
  have h2 := create_ssl_context_locations h
  simpa [resolvedPem] using h2

theorem claim_C8_witness :
    c8ctx.verifyLocations = some (some certifi_where, none) :=
  claim_C8 engAllOk false DEFAULT_METHOD none none none none none VERIFY_PEER
    true c8ctx rfl

/-- C8 counterexample: with `verify = None` and no CA material supplied,
`_create_ssl_context` succeeds without ever loading a trust store. -/
theorem claim_C8_cex :
    (ctxOf (_create_ssl_context engAllOk false DEFAULT_METHOD none none none
        none none none none none true)).map (fun c => c.verifyLocations) =
      some none := rfl

/-- C10 (amended): for every successful `create_server_context` call —
including calls with `request_client_cert = false` — the supplied chain file
is installed as the CA bundle of the verify locations, together with any CA
directory (`ca_path`) forwarded through the extra context kwargs; when
neither a chain file nor a CA directory is supplied, the system default
trust bundle (`certifi.where()`) is loaded.  When a CA directory is
forwarded with no chain file, that directory alone is loaded, not the system
default bundle (see the counterexample). -/
theorem claim_C10 (eng : Engine) (logE : Bool) (cert : SSLCertModel ⊕ String)
    (handle_sni request_client_cert : Bool) (chain_file : Option String)
    (dhparams : Bool) (extra : Option (List SSLCertModel)) (method : Nat)
    (options : Option Nat) (ca_path cipher_list : Option String)
    (protos : Option (List String)) (sel : Option String) (cb : Option Bool)
    (sctx : ServerContext)
    (h : create_server_context eng logE cert handle_sni request_client_cert
        chain_file dhparams extra method options ca_path cipher_list protos
        sel cb = Except.ok sctx) :
    sctx.base.verifyLocations =
      some ((if ca_path = none ∧ chain_file = none then some certifi_where
             else chain_file), ca_path) := by
  unfold create_server_context at h
  split at h
  · simp at h
  · rename_i ctx heq
    simp only [Except.ok.injEq] at h
    subst h
    have h2 := create_ssl_context_locations heq
    show ctx.verifyLocations = _
    rw [h2]
    rfl

theorem claim_C10_witness :
    c10ctx.base.verifyLocations = some (some certifi_where, none) :=
  claim_C10 engAllOk false (Sum.inr "server-chain.pem") false false none false
    none DEFAULT_METHOD none none none none none none c10ctx rfl

/-- C10 counterexample: a call forwarding a CA directory (`ca_path`) through
the extra context kwargs, with no chain file, loads that directory as the
verify locations — the loaded CA bundle file is `None`, not the system
default trust bundle. -/
theorem claim_C10_cex :
    (serverCtxOf (create_server_context engAllOk false
        (Sum.inr "server-chain.pem") false false none false none
        DEFAULT_METHOD none (some "cadir") none none none none)).map
      (fun c => c.base.verifyLocations) =
      some (some (none, some "cadir")) ∧
    (none : Option String) ≠ some certifi_where :=
  ⟨rfl, by decide⟩
